import Mathlib

/-!
Shallow embedding of the Telegram chatbot webhook service (`app/main.py`).

The service keeps two process-wide dictionaries (`conversations`, `user_modes`),
a static mode registry, and one FastAPI endpoint `webhook` that dispatches an
inbound Telegram update.  Python dictionaries are modelled as association
lists; the webhook handler is modelled as a function from an environment (the
outcomes of the external HTTP / completion calls), the global state and the
parsed update to either a normal result (new state, ordered list of outbound
effects, the `\x7b"ok": True\x7d` acknowledgement) or a propagated Python
exception (which FastAPI would turn into an error response).
-/

set_option autoImplicit false

namespace TelegramBot

/-- One history entry, `\x7b"role": ..., "content": ...\x7d` in the source. -/
structure Entry where
  role : String
  content : String
deriving DecidableEq, Repr

abbrev History := List Entry

/-- `d.get(k)` / `d[k]` lookup on a Python dict modelled as an association list. -/
def dictGet {κ α : Type} [DecidableEq κ] (d : List (κ × α)) (k : κ) : Option α :=
  match d with
  | [] => none
  | (k', v) :: rest => if k' = k then some v else dictGet rest k

/-- `d[k] = v` on a Python dict: replace the binding in place or append it. -/
def dictSet {κ α : Type} [DecidableEq κ] (d : List (κ × α)) (k : κ) (v : α) :
    List (κ × α) :=
  match d with
  | [] => [(k, v)]
  | (k', v') :: rest => if k' = k then (k, v) :: rest else (k', v') :: dictSet rest k v

/-- `d.pop(k, None)`: remove the binding for `k` (keys are unique in a dict). -/
def dictPop {κ α : Type} [DecidableEq κ] (d : List (κ × α)) (k : κ) : List (κ × α) :=
  match d with
  | [] => []
  | (k', v') :: rest => if k' = k then dictPop rest k else (k', v') :: dictPop rest k

/-- `MAX_TURNS = 10` (source line 30). -/
def MAX_TURNS : Nat := 10

/-- The static mode registry `modes` (source lines 32-37), in source order. -/
def modes : List (String × String) :=
  [("general", "You are a helpful, concise assistant for everyday questions."),
   ("restaurant", "You are a restaurant assistant. Help users find restaurants, suggest dishes, and answer politely."),
   ("fitness", "You are a friendly fitness coach. Give workout routines, diet tips, and motivational advice."),
   ("realestate", "You are a professional real estate agent. Provide property suggestions, buying/selling advice, and market insights.")]

/-- `DEFAULT_MODE = "general"` (source line 39). -/
def DEFAULT_MODE : String := "general"

/-- `get_history` (source lines 42-43).  The source uses
`conversations.setdefault(chat_id, [])`; observationally a missing key and a
key bound to the empty list both read as the empty history, and the one place
where the in-place mutation matters (`append_and_trim`) is modelled there. -/
def get_history (conversations : List (Int × History)) (chat_id : Int) : History :=
  (dictGet conversations chat_id).getD []

/-- `append_and_trim` (source lines 46-50).  `hist.append(...)` mutates the
list held by the dict (inserting it first when absent, via `setdefault`), so
the dict afterwards binds `chat_id` to the appended list; when the appended
length exceeds `MAX_TURNS * 2` the source reassigns `hist[-MAX_TURNS * 2:]`. -/
def append_and_trim (conversations : List (Int × History)) (chat_id : Int)
    (role content : String) : List (Int × History) :=
  let hist := get_history conversations chat_id ++ [Entry.mk role content]
  let d := dictSet conversations chat_id hist
  if MAX_TURNS * 2 < hist.length then
    dictSet d chat_id (hist.drop (hist.length - MAX_TURNS * 2))
  else d

/-- `get_mode` (source lines 53-54): `user_modes.get(chat_id, DEFAULT_MODE)`. -/
def get_mode (user_modes : List (Int × String)) (chat_id : Int) : String :=
  (dictGet user_modes chat_id).getD DEFAULT_MODE

/-- Python `str.isspace` characters relevant to `str.strip()` (ASCII range). -/
def isPySpace (c : Char) : Bool :=
  c == ' ' || c == '\t' || c == '\n' || c == '\x0b' || c == '\x0c' || c == '\r'

/-- Python `str.strip()`: drop leading and trailing whitespace. -/
def pyStrip (s : String) : String :=
  String.mk (((s.data.dropWhile isPySpace).reverse.dropWhile isPySpace).reverse)

/-- Python `str.lower()` (the strings the service compares are ASCII plus
emoji, which `lower` leaves untouched). -/
def pyLower (s : String) : String :=
  String.mk (s.data.map Char.toLower)

/-- Helper for Python `str.title()`: uppercase a letter that follows a
non-letter, lowercase a letter that follows a letter. -/
def pyTitleAux : Bool → List Char → List Char
  | _, [] => []
  | prevAlpha, c :: cs =>
    (if c.isAlpha then (if prevAlpha then c.toLower else c.toUpper) else c)
      :: pyTitleAux c.isAlpha cs

/-- Python `str.title()`. -/
def pyTitle (s : String) : String :=
  String.mk (pyTitleAux false s.data)

/-- Python `str.startswith` on the underlying character lists. -/
def listStartsWith : List Char → List Char → Bool
  | _, [] => true
  | [], _ :: _ => false
  | c :: cs, p :: ps => c == p && listStartsWith cs ps

/-- Python `s.startswith(p)`. -/
def pyStartsWith (s p : String) : Bool :=
  listStartsWith s.data p.data

/-- Python `s.split(":")` on the underlying character list. -/
def splitColon : List Char → List (List Char)
  | [] => [[]]
  | c :: cs =>
    match splitColon cs with
    | [] => [[]]
    | seg :: rest => if c = ':' then [] :: seg :: rest else (c :: seg) :: rest

/-- Python `s.split(":")`. -/
def pySplitColon (s : String) : List String :=
  (splitColon s.data).map String.mk

/-- Keyboards attached to outbound `sendMessage` calls: either a persistent
reply keyboard (rows of button labels, `resize_keyboard`, `one_time_keyboard`)
or an inline keyboard (rows of (label, callback_data) buttons). -/
inductive ReplyMarkup where
  | replyKeyboard (keyboard : List (List String))
      (resize_keyboard one_time_keyboard : Bool)
  | inlineKeyboard (inline_keyboard : List (List (String × String)))
deriving DecidableEq, Repr

/-- `main_keyboard()` (source lines 89-95). -/
def main_keyboard : ReplyMarkup :=
  ReplyMarkup.replyKeyboard [["⚙️ Mode", "🔄 Reset"]] true false

/-- The inline mode-selection keyboard rows built in the source (lines
120-124 and 171-174): one row per registered mode, label title-cased and
check-marked when equal to `active`, payload `mode:<name>`. -/
def mode_buttons (active : String) : List (List (String × String)) :=
  modes.map (fun p =>
    [((if p.1 = active then "✅ " else "") ++ pyTitle p.1, "mode:" ++ p.1)])

/-- One outbound call made by the handler, in order of occurrence. -/
inductive Effect where
  | answerCallback (callback_query_id : String) (text : Option String)
  | sendTyping (chat_id : Int)
  | sendMessage (chat_id : Int) (text : String) (reply_markup : Option ReplyMarkup)
  | completionRequest (messages : List Entry)
deriving DecidableEq, Repr

/-- `answer_callback_query` (source lines 63-68) attaches the toast text to
the payload only when it is truthy (non-empty). -/
def answer_callback_query_effect (callback_query_id : String)
    (text : Option String) : Effect :=
  Effect.answerCallback callback_query_id
    (match text with
     | none => none
     | some t => if t = "" then none else some t)

/-- Outcome of one outbound HTTP call: `httpx` either raises (network error,
timeout) or returns a response object whose status code is never inspected by
the source. -/
inductive CallResult where
  | ok (status : Nat)
  | exn
deriving DecidableEq, Repr

/-- A Python exception escaping the handler body. -/
inductive PyExn where
  | keyError
  | transportError
deriving DecidableEq, Repr

/-- Outcomes of the external collaborators for one webhook invocation:
the three transport calls the handler can make and the OpenAI chat-completion
call (`Except.error` = the call raised; `Except.ok content` = it returned,
with `content` the possibly-absent message content). -/
structure Env where
  answerCallback : CallResult
  sendTyping : CallResult
  sendMessage : CallResult
  completion : Except Unit (Option String)

/-- `\x7b"chat": \x7b"id": ...\x7d\x7d` with every field possibly missing. -/
structure TgChat where
  id : Option Int
deriving DecidableEq, Repr

/-- A Telegram message object, restricted to the fields the source reads. -/
structure TgMessage where
  chat : Option TgChat
  text : Option String
deriving DecidableEq, Repr

/-- A Telegram callback_query object, restricted to the fields the source
reads (`cq["message"]["chat"]["id"]`, `cq["data"]`, `cq["id"]`). -/
structure TgCallbackQuery where
  message : Option TgMessage
  data : Option String
  id : Option String
deriving DecidableEq, Repr

/-- An inbound update: the source only tests `"callback_query" in update`
and reads `update.get("message")`. -/
structure TgUpdate where
  callback_query : Option TgCallbackQuery
  message : Option TgMessage
deriving DecidableEq, Repr

/-- The two process-wide dictionaries (source lines 28-29). -/
structure BotState where
  conversations : List (Int × History)
  user_modes : List (Int × String)
deriving DecidableEq, Repr

/-- The handler's exception monad: an escaped exception carries the state and
the effects already performed when it escaped. -/
abbrev HandlerExcept (α : Type) : Type :=
  Except (PyExn × BotState × List Effect) α

/-- Result type of one handler invocation: the final state, the outbound
effects, and the `\x7b"ok": True\x7d` acknowledgement. -/
abbrev WebhookResult : Type := HandlerExcept (BotState × List Effect × Bool)

/-- `d["k"]`: return the value or raise `KeyError`. -/
def pyIndex {α : Type} (o : Option α) (st : BotState) (effs : List Effect) :
    HandlerExcept α :=
  match o with
  | some a => Except.ok a
  | none => Except.error (PyExn.keyError, st, effs)

/-- Perform one outbound transport call: append the effect on a returned
response (whose status the source never checks), or raise on a transport
exception. -/
def doCall (r : CallResult) (e : Effect) (st : BotState) (effs : List Effect) :
    HandlerExcept (List Effect) :=
  match r with
  | CallResult.ok _ => Except.ok (effs ++ [e])
  | CallResult.exn => Except.error (PyExn.transportError, st, effs)

/-- The welcome text sent for `/start` (source lines 156-159; adjacent Python
string literals concatenate). -/
def start_text : String :=
  "👋 Hi! I’m your AI assistant.\n• Use /reset to clear memory\n• Use /mode to change my role (restaurant, fitness, realestate)\nDefault mode: General ✅"

/-- The free-form conversational turn (source lines 183-204): append the user
turn, resolve the system prompt, call the completion service (its failure is
the only caught exception in the handler), append the assistant turn, send the
mode-labelled reply with the persistent keyboard. -/
def handleFreeText (env : Env) (st : BotState) (chat_id : Int) (text : String)
    (effs : List Effect) : WebhookResult :=
  let conversations1 := append_and_trim st.conversations chat_id "user" text
  let mode := get_mode st.user_modes chat_id
  let system_prompt := (dictGet modes mode).getD ((dictGet modes DEFAULT_MODE).getD "")
  let messages := Entry.mk "system" system_prompt :: get_history conversations1 chat_id
  let effs1 := effs ++ [Effect.completionRequest messages]
  let bot_reply :=
    match env.completion with
    | Except.error _ => "Sorry, I ran into an issue."
    | Except.ok none => "..."
    | Except.ok (some s) => if s = "" then "..." else s
  let conversations2 := append_and_trim conversations1 chat_id "assistant" bot_reply
  let st1 : BotState := BotState.mk conversations2 st.user_modes
  let reply_text := "💬 *[" ++ pyTitle mode ++ " Mode]*\n\n" ++ bot_reply
  do
    let effs2 ← doCall env.sendMessage
      (Effect.sendMessage chat_id reply_text (some main_keyboard)) st1 effs1
    return (st1, effs2, true)

/-- The command-parsing section of the handler (source lines 151-177),
reached for a text message after the typing indicator was sent. -/
def handleText (env : Env) (st : BotState) (chat_id : Int) (text : String)
    (effs : List Effect) : WebhookResult :=
  if pyStartsWith (pyLower (pyStrip text)) "/start" then
    let st1 : BotState := BotState.mk (dictPop st.conversations chat_id)
      (dictSet st.user_modes chat_id DEFAULT_MODE)
    do
      let effs1 ← doCall env.sendMessage
        (Effect.sendMessage chat_id start_text (some main_keyboard)) st1 effs
      return (st1, effs1, true)
  else if pyStartsWith (pyLower (pyStrip text)) "/reset" then
    let st1 : BotState := BotState.mk (dictPop st.conversations chat_id) st.user_modes
    do
      let effs1 ← doCall env.sendMessage
        (Effect.sendMessage chat_id "Memory cleared. Fresh start! ✨" (some main_keyboard)) st1 effs
      return (st1, effs1, true)
  else if pyLower (pyStrip text) = "/mode" ∨ pyLower (pyStrip text) = "⚙️ mode" then
    let current := get_mode st.user_modes chat_id
    do
      let effs1 ← doCall env.sendMessage
        (Effect.sendMessage chat_id "👉 Choose a mode:"
          (some (ReplyMarkup.inlineKeyboard (mode_buttons current)))) st effs
      return (st, effs1, true)
  else
    handleFreeText env st chat_id text effs

/-- The message half of the handler (source lines 131-204): extract the chat
id and text, bail out on a missing message or chat id, send the typing
indicator, send the text-only notice for non-text content, else parse
commands. -/
def handleMessage (env : Env) (st : BotState) (u : TgUpdate) : WebhookResult :=
  match u.message with
  | none => Except.ok (st, [], true)
  | some message =>
    let chatId :=
      match message.chat with
      | some chatObj => chatObj.id
      | none => none
    match chatId with
    | none => Except.ok (st, [], true)
    | some chat_id =>
      do
        let effs ← doCall env.sendTyping (Effect.sendTyping chat_id) st []
        match message.text with
        | none =>
          let effs1 ← doCall env.sendMessage
            (Effect.sendMessage chat_id "I can only read text messages for now 😊" none) st effs
          return (st, effs1, true)
        | some text => handleText env st chat_id text effs

/-- The body of the `if callback_data.startswith("mode:")` block (source
lines 113-128): extract the token after the first colon; when registered, set
the mode, clear the conversation, build (but never attach) the refreshed
inline keyboard, answer the callback and send the confirmation with the
persistent keyboard; when unregistered, acknowledge with no state change. -/
def handleModeCallback (env : Env) (st : BotState) (chat_id : Int)
    (callback_data cq_id : String) : WebhookResult :=
  let mode_choice := (pySplitColon callback_data).getD 1 ""
  if (dictGet modes mode_choice).isSome then
    let st1 : BotState := BotState.mk (dictPop st.conversations chat_id)
      (dictSet st.user_modes chat_id mode_choice)
    let _reply_markup := ReplyMarkup.inlineKeyboard (mode_buttons mode_choice)
    do
      let effs1 ← doCall env.answerCallback
        (answer_callback_query_effect cq_id (some ("Mode set to " ++ mode_choice))) st1 []
      let effs2 ← doCall env.sendMessage
        (Effect.sendMessage chat_id ("✅ Mode switched to *" ++ pyTitle mode_choice ++ "*")
          (some main_keyboard)) st1 effs1
      return (st1, effs2, true)
  else
    Except.ok (st, [], true)

/-- The webhook endpoint (source lines 101-206).  A present `callback_query`
is indexed for `["message"]["chat"]["id"]`, `["data"]` and `["id"]` (raising
`KeyError` on a missing field); data starting with `mode:` is terminal, any
other data falls through to the message half. -/
def webhook (env : Env) (st : BotState) (u : TgUpdate) : WebhookResult :=
  match u.callback_query with
  | some cq =>
    do
      let cqMessage ← pyIndex cq.message st []
      let cqChat ← pyIndex cqMessage.chat st []
      let chat_id ← pyIndex cqChat.id st []
      let callback_data ← pyIndex cq.data st []
      let cq_id ← pyIndex cq.id st []
      if pyStartsWith callback_data "mode:" then
        handleModeCallback env st chat_id callback_data cq_id
      else
        handleMessage env st u
  | none => handleMessage env st u

/-! ### Dictionary lemmas -/

theorem dictGet_set_self {κ α : Type} [DecidableEq κ] (d : List (κ × α)) (k : κ) (v : α) :
    dictGet (dictSet d k v) k = some v := by
  induction d with
  | nil => simp [dictGet, dictSet]
  | cons p rest ih =>
    obtain ⟨k', v'⟩ := p
    by_cases h : k' = k <;> simp [dictGet, dictSet, h, ih]

theorem dictGet_set_ne {κ α : Type} [DecidableEq κ] (d : List (κ × α)) (k k' : κ) (v : α)
    (h : k' ≠ k) : dictGet (dictSet d k v) k' = dictGet d k' := by
  induction d with
  | nil => simp [dictGet, dictSet, Ne.symm h]
  | cons p rest ih =>
    obtain ⟨k₀, v₀⟩ := p
    by_cases h₀ : k₀ = k
    · subst h₀
      simp [dictGet, dictSet, Ne.symm h]
    · simp [dictGet, dictSet, h₀, ih]

theorem dictGet_pop_self {κ α : Type} [DecidableEq κ] (d : List (κ × α)) (k : κ) :
    dictGet (dictPop d k) k = none := by
  induction d with
  | nil => simp [dictGet, dictPop]
  | cons p rest ih =>
    obtain ⟨k₀, v₀⟩ := p
    by_cases h₀ : k₀ = k <;> simp [dictGet, dictPop, h₀, ih]

theorem dictGet_pop_ne {κ α : Type} [DecidableEq κ] (d : List (κ × α)) (k k' : κ)
    (h : k' ≠ k) : dictGet (dictPop d k) k' = dictGet d k' := by
  induction d with
  | nil => simp [dictGet, dictPop]
  | cons p rest ih =>
    obtain ⟨k₀, v₀⟩ := p
    by_cases h₀ : k₀ = k
    · subst h₀
      simp [dictGet, dictPop, Ne.symm h, ih]
    · simp [dictGet, dictPop, h₀, ih]

/-! ### `append_and_trim` lemmas -/

/-- When the appended history exceeds the cap, the stored history is its
last `MAX_TURNS * 2` entries (the oldest are dropped). -/
theorem get_history_append_and_trim_gt (d : List (Int × History)) (c : Int)
    (r x : String)
    (h : MAX_TURNS * 2 < (get_history d c ++ [Entry.mk r x]).length) :
    get_history (append_and_trim d c r x) c =
      (get_history d c ++ [Entry.mk r x]).drop
        ((get_history d c ++ [Entry.mk r x]).length - MAX_TURNS * 2) := by
  simp only [append_and_trim]
  split
  next => simp [get_history, dictGet_set_self]
  next hn => exact absurd h hn

/-- When the appended history is within the cap, it is stored as is. -/
theorem get_history_append_and_trim_of_le (d : List (Int × History)) (c : Int)
    (r x : String)
    (h : (get_history d c ++ [Entry.mk r x]).length ≤ MAX_TURNS * 2) :
    get_history (append_and_trim d c r x) c = get_history d c ++ [Entry.mk r x] := by
  simp only [append_and_trim]
  split
  next hp => exact absurd hp (not_lt.mpr h)
  next => simp [get_history, dictGet_set_self]

/-- `append_and_trim` only touches the binding of `chat_id`. -/
theorem get_append_and_trim_ne (d : List (Int × History)) (c c' : Int)
    (r x : String) (h : c' ≠ c) :
    dictGet (append_and_trim d c r x) c' = dictGet d c' := by
  by_cases hlen : MAX_TURNS * 2 < (get_history d c ++ [Entry.mk r x]).length
  · simp only [append_and_trim]
    rw [if_pos hlen, dictGet_set_ne _ _ _ _ h, dictGet_set_ne _ _ _ _ h]
  · simp only [append_and_trim]
    rw [if_neg hlen, dictGet_set_ne _ _ _ _ h]

/-- The freshly appended entry is the last entry of the stored history. -/
theorem get_history_append_and_trim_last (d : List (Int × History)) (c : Int)
    (r x : String) :
    ∃ h0, get_history (append_and_trim d c r x) c = h0 ++ [Entry.mk r x] := by
  by_cases h : MAX_TURNS * 2 < (get_history d c ++ [Entry.mk r x]).length
  · refine ⟨(get_history d c).drop
      ((get_history d c ++ [Entry.mk r x]).length - MAX_TURNS * 2), ?_⟩
    rw [get_history_append_and_trim_gt d c r x h, List.drop_append_of_le_length]
    simp only [List.length_append, List.length_singleton, MAX_TURNS] at h ⊢
    omega
  · exact ⟨get_history d c, get_history_append_and_trim_of_le d c r x (not_lt.mp h)⟩

/-! ### `startswith` lemmas -/

/-- Two patterns that agree on their first character but differ on their
second cannot both be prefixes of the same string. -/
theorem listStartsWith_second_ne (l : List Char) (a b₁ b₂ : Char)
    (p₁ p₂ : List Char) (hne : b₁ ≠ b₂)
    (h : listStartsWith l (a :: b₁ :: p₁) = true) :
    listStartsWith l (a :: b₂ :: p₂) = false := by
  match l with
  | [] => simp [listStartsWith] at h
  | [c] => simp [listStartsWith] at h
  | c :: c' :: rest =>
    simp only [listStartsWith, Bool.and_eq_true, beq_iff_eq] at h
    obtain ⟨rfl, rfl, -⟩ := h
    simp [listStartsWith, hne]

theorem reset_not_start (t : String) (h : pyStartsWith t "/reset" = true) :
    pyStartsWith t "/start" = false :=
  listStartsWith_second_ne t.data '/' 'r' 's' _ _ (by decide) h

theorem mode_not_start (t : String) (h : pyStartsWith t "/mode" = true) :
    pyStartsWith t "/start" = false :=
  listStartsWith_second_ne t.data '/' 'm' 's' _ _ (by decide) h

theorem mode_not_reset (t : String) (h : pyStartsWith t "/mode" = true) :
    pyStartsWith t "/reset" = false :=
  listStartsWith_second_ne t.data '/' 'm' 'r' _ _ (by decide) h

/-- A lookup hit in the static registry forces the key to be one of the four
registered names. -/
theorem registered_mode_cases (name p : String) (h : dictGet modes name = some p) :
    name = "general" ∨ name = "restaurant" ∨ name = "fitness" ∨ name = "realestate" := by
  by_cases h1 : name = "general"
  · exact Or.inl h1
  by_cases h2 : name = "restaurant"
  · exact Or.inr (Or.inl h2)
  by_cases h3 : name = "fitness"
  · exact Or.inr (Or.inr (Or.inl h3))
  by_cases h4 : name = "realestate"
  · exact Or.inr (Or.inr (Or.inr h4))
  exfalso
  simp [modes, dictGet, Ne.symm h1, Ne.symm h2, Ne.symm h3, Ne.symm h4] at h

/-! ### Branch-reduction lemmas for the text-message path -/

/-- A text message whose stripped, lowercased text starts with `/start` takes
the `/start` branch: history popped, mode reset to the default, welcome text
sent with the persistent keyboard. -/
theorem handleText_start (a ty : CallResult) (m : Nat)
    (cmp : Except Unit (Option String)) (st : BotState) (c : Int)
    (txt : String) (effs : List Effect)
    (h : pyStartsWith (pyLower (pyStrip txt)) "/start" = true) :
    handleText (Env.mk a ty (CallResult.ok m) cmp) st c txt effs =
      Except.ok (BotState.mk (dictPop st.conversations c)
          (dictSet st.user_modes c DEFAULT_MODE),
        effs ++ [Effect.sendMessage c start_text (some main_keyboard)], true) := by
  simp only [handleText]
  rw [if_pos h]
  rfl

/-- A text message whose stripped, lowercased text starts with `/reset`
(hence not with `/start`) takes the `/reset` branch: history popped, mode
untouched, confirmation sent with the persistent keyboard. -/
theorem handleText_reset (a ty : CallResult) (m : Nat)
    (cmp : Except Unit (Option String)) (st : BotState) (c : Int)
    (txt : String) (effs : List Effect)
    (h : pyStartsWith (pyLower (pyStrip txt)) "/reset" = true) :
    handleText (Env.mk a ty (CallResult.ok m) cmp) st c txt effs =
      Except.ok (BotState.mk (dictPop st.conversations c) st.user_modes,
        effs ++ [Effect.sendMessage c "Memory cleared. Fresh start! ✨"
          (some main_keyboard)], true) := by
  have hs : pyStartsWith (pyLower (pyStrip txt)) "/start" = false :=
    reset_not_start _ h
  simp only [handleText]
  rw [if_neg (by simp [hs]), if_pos h]
  rfl

/-- A text message whose stripped, lowercased text is exactly `/mode` or the
mode-button label takes the mode-keyboard branch: no state change, the
mode-selection inline keyboard sent with the current mode marked. -/
theorem handleText_mode (a ty : CallResult) (m : Nat)
    (cmp : Except Unit (Option String)) (st : BotState) (c : Int)
    (txt : String) (effs : List Effect)
    (h : pyLower (pyStrip txt) = "/mode" ∨ pyLower (pyStrip txt) = "⚙️ mode") :
    handleText (Env.mk a ty (CallResult.ok m) cmp) st c txt effs =
      Except.ok (st, effs ++ [Effect.sendMessage c "👉 Choose a mode:"
        (some (ReplyMarkup.inlineKeyboard
          (mode_buttons (get_mode st.user_modes c))))], true) := by
  have hs : pyStartsWith (pyLower (pyStrip txt)) "/start" = false := by
    rcases h with h | h <;> rw [h] <;> decide
  have hr : pyStartsWith (pyLower (pyStrip txt)) "/reset" = false := by
    rcases h with h | h <;> rw [h] <;> decide
  simp only [handleText]
  rw [if_neg (by simp [hs]), if_neg (by simp [hr]), if_pos h]
  rfl

/-- A text message matching none of the three command patterns is handled as
a free-form conversational turn. -/
theorem handleText_freeform (env : Env) (st : BotState) (c : Int)
    (txt : String) (effs : List Effect)
    (h1 : pyStartsWith (pyLower (pyStrip txt)) "/start" = false)
    (h2 : pyStartsWith (pyLower (pyStrip txt)) "/reset" = false)
    (h3 : ¬(pyLower (pyStrip txt) = "/mode" ∨ pyLower (pyStrip txt) = "⚙️ mode")) :
    handleText env st c txt effs = handleFreeText env st c txt effs := by
  simp only [handleText]
  rw [if_neg (by simp [h1]), if_neg (by simp [h2]), if_neg h3]

/-! ### Claim theorems -/

/-- Claim C1: on a valid `mode:<name>` callback the handler does set the
mode, clear the conversation, acknowledge the callback and send a
confirmation — but the keyboard attached to the confirmation message is the
persistent main keyboard, not the re-rendered mode-selection inline keyboard
(which the source builds into an unused variable).  This theorem evaluates
the handler at a valid `mode:fitness` callback and exhibits the divergence. -/
theorem claim1_confirmation_uses_main_keyboard :
    webhook (Env.mk (CallResult.ok 200) (CallResult.ok 200) (CallResult.ok 200)
        (Except.ok (some "hi")))
      (BotState.mk [(7, [Entry.mk "user" "x"])] [(7, "general")])
      (TgUpdate.mk (some (TgCallbackQuery.mk
        (some (TgMessage.mk (some (TgChat.mk (some 7))) none))
        (some "mode:fitness") (some "42"))) none) =
      Except.ok (BotState.mk [] [(7, "fitness")],
        [Effect.answerCallback "42" (some "Mode set to fitness"),
         Effect.sendMessage 7 "✅ Mode switched to *Fitness*" (some main_keyboard)],
        true)
    ∧ main_keyboard ≠ ReplyMarkup.inlineKeyboard (mode_buttons "fitness") :=
  ⟨rfl, by decide⟩

/-- Claim C2 (amended): the typing indicator's HTTP response is never
inspected, so any returned status (success or error) leaves the handling of a
text-message update entirely unchanged; a raised transport exception,
however, propagates (see the counterexample). -/
theorem claim2_typing_status_ignored (a sm : CallResult)
    (cmp : Except Unit (Option String)) (st : BotState) (c : Int)
    (txt : Option String) (s₁ s₂ : Nat) :
    webhook (Env.mk a (CallResult.ok s₁) sm cmp) st
        (TgUpdate.mk none (some (TgMessage.mk (some (TgChat.mk (some c))) txt))) =
      webhook (Env.mk a (CallResult.ok s₂) sm cmp) st
        (TgUpdate.mk none (some (TgMessage.mk (some (TgChat.mk (some c))) txt))) :=
  rfl

/-- Claim C2 counterexample: when the typing-indicator call raises, the
exception escapes the handler — handling does not continue to completion and
no success acknowledgement is produced. -/
theorem claim2_typing_exception_aborts :
    webhook (Env.mk (CallResult.ok 200) CallResult.exn (CallResult.ok 200)
        (Except.ok (some "hi")))
      (BotState.mk [] [])
      (TgUpdate.mk none (some (TgMessage.mk (some (TgChat.mk (some 7))) (some "hello")))) =
      Except.error (PyExn.transportError, BotState.mk [] [], []) :=
  rfl

/-- Claim C3 (amended): on the message path, missing fields never crash the
handler — an update with no message, a message with no chat object, and a
message whose chat has no id are all silently acknowledged, and non-text
content gets the gentle notice (when the transport calls return).  A
malformed callback_query, by contrast, raises (see the counterexample). -/
theorem claim3_malformed_message_path_ok :
    (∀ env st, webhook env st (TgUpdate.mk none none) = Except.ok (st, [], true)) ∧
    (∀ env st txt, webhook env st
        (TgUpdate.mk none (some (TgMessage.mk none txt))) = Except.ok (st, [], true)) ∧
    (∀ env st txt, webhook env st
        (TgUpdate.mk none (some (TgMessage.mk (some (TgChat.mk none)) txt))) =
      Except.ok (st, [], true)) ∧
    (∀ a cmp st c (s₁ s₂ : Nat),
      webhook (Env.mk a (CallResult.ok s₁) (CallResult.ok s₂) cmp) st
          (TgUpdate.mk none (some (TgMessage.mk (some (TgChat.mk (some c))) none))) =
        Except.ok (st, [Effect.sendTyping c,
          Effect.sendMessage c "I can only read text messages for now 😊" none], true)) :=
  ⟨fun _ _ => rfl, fun _ _ _ => rfl, fun _ _ _ => rfl, fun _ _ _ _ _ _ => rfl⟩

/-- Claim C3 counterexample: an inbound update whose callback_query lacks the
`message` field raises `KeyError` out of the handler instead of returning the
success acknowledgement. -/
theorem claim3_callback_missing_message_raises :
    webhook (Env.mk (CallResult.ok 200) (CallResult.ok 200) (CallResult.ok 200)
        (Except.ok (some "hi")))
      (BotState.mk [] [])
      (TgUpdate.mk (some (TgCallbackQuery.mk none (some "mode:fitness") (some "1"))) none) =
      Except.error (PyExn.keyError, BotState.mk [] [], []) :=
  rfl

/-- Claim C4: after any single `append_and_trim` (hence after each operation
of any sequence), the stored history has at most `MAX_TURNS * 2 = 20`
entries, and it is a tail of the appended history — the oldest entries are
the ones dropped. -/
theorem claim4_history_bounded (d : List (Int × History)) (c : Int) (r x : String) :
    (get_history (append_and_trim d c r x) c).length ≤ MAX_TURNS * 2 ∧
    ∃ k, get_history (append_and_trim d c r x) c =
      (get_history d c ++ [Entry.mk r x]).drop k := by
  constructor
  · by_cases h : MAX_TURNS * 2 < (get_history d c ++ [Entry.mk r x]).length
    · rw [get_history_append_and_trim_gt d c r x h, List.length_drop]
      omega
    · rw [get_history_append_and_trim_of_le d c r x (not_lt.mp h)]
      exact not_lt.mp h
  · by_cases h : MAX_TURNS * 2 < (get_history d c ++ [Entry.mk r x]).length
    · exact ⟨_, get_history_append_and_trim_gt d c r x h⟩
    · exact ⟨0, by rw [get_history_append_and_trim_of_le d c r x (not_lt.mp h)]; rfl⟩

/-- Claim C6 (amended): the handler takes as mode token the segment of the
callback data between the first and the second colon (`split(":")[1]`); when
that token is not a registered mode it leaves all state unchanged, performs
no outbound call, and returns the success acknowledgement.  (The claim as
stated, quantifying over the whole suffix after `mode:`, fails — see the
counterexample.) -/
theorem claim6_unregistered_token_silent (env : Env) (st : BotState) (c : Int)
    (d cqid : String) (h1 : pyStartsWith d "mode:" = true)
    (h2 : dictGet modes ((pySplitColon d).getD 1 "") = none) :
    webhook env st (TgUpdate.mk (some (TgCallbackQuery.mk
        (some (TgMessage.mk (some (TgChat.mk (some c))) none))
        (some d) (some cqid))) none) =
      Except.ok (st, [], true) := by
  have hred : webhook env st (TgUpdate.mk (some (TgCallbackQuery.mk
      (some (TgMessage.mk (some (TgChat.mk (some c))) none))
      (some d) (some cqid))) none) =
      (if pyStartsWith d "mode:" = true then handleModeCallback env st c d cqid
       else handleMessage env st (TgUpdate.mk (some (TgCallbackQuery.mk
        (some (TgMessage.mk (some (TgChat.mk (some c))) none))
        (some d) (some cqid))) none)) := rfl
  rw [hred, if_pos h1]
  simp only [handleModeCallback]
  rw [h2]
  rfl

/-- Witness for `claim6_unregistered_token_silent`: data `mode:wizard`, with
an environment in which every external call would raise, leaves the state
untouched and performs no call. -/
theorem claim6_witness :
    webhook (Env.mk CallResult.exn CallResult.exn CallResult.exn (Except.error ()))
      (BotState.mk [(9, [Entry.mk "user" "x"])] [(9, "general")])
      (TgUpdate.mk (some (TgCallbackQuery.mk
        (some (TgMessage.mk (some (TgChat.mk (some 9))) none))
        (some "mode:wizard") (some "42"))) none) =
      Except.ok (BotState.mk [(9, [Entry.mk "user" "x"])] [(9, "general")], [], true) :=
  claim6_unregistered_token_silent _ _ 9 "mode:wizard" "42" (by decide) (by decide)

/-- Claim C6 counterexample: the callback data `mode:fitness:extra` is
`mode:<name>` for the unregistered name `fitness:extra`, yet the handler sets
the mode to `fitness`, clears the history, answers the callback and sends a
confirmation — the state does change. -/
theorem claim6_counterexample :
    pyStartsWith "mode:fitness:extra" "mode:" = true ∧
    dictGet modes "fitness:extra" = none ∧
    webhook (Env.mk (CallResult.ok 200) (CallResult.ok 200) (CallResult.ok 200)
        (Except.ok (some "hi")))
      (BotState.mk [(9, [Entry.mk "user" "x"])] [(9, "general")])
      (TgUpdate.mk (some (TgCallbackQuery.mk
        (some (TgMessage.mk (some (TgChat.mk (some 9))) none))
        (some "mode:fitness:extra") (some "42"))) none) =
      Except.ok (BotState.mk [] [(9, "fitness")],
        [Effect.answerCallback "42" (some "Mode set to fitness"),
         Effect.sendMessage 9 "✅ Mode switched to *Fitness*" (some main_keyboard)],
        true) ∧
    BotState.mk ([] : List (Int × History)) [(9, "fitness")] ≠
      BotState.mk [(9, [Entry.mk "user" "x"])] [(9, "general")] :=
  ⟨by decide, by decide, rfl, by decide⟩

/-- The 25 user+assistant pairs of the C7 scenario, in order. -/
def c7Seq : List Entry :=
  ((List.range 25).map (fun i =>
    [Entry.mk "user" ("u" ++ toString (i + 1)),
     Entry.mk "assistant" ("a" ++ toString (i + 1))])).flatten

/-- The conversations dictionary after appending the 50 entries of `c7Seq`
one `append_and_trim` at a time, starting from an empty store. -/
def c7Final : List (Int × History) :=
  c7Seq.foldl (fun d e => append_and_trim d 0 e.role e.content) []

set_option maxRecDepth 16384 in
/-- Claim C7: with `MAX_TURNS = 10`, after appending 25 user+assistant pairs
(50 entries) for a chat with initially empty history, the stored history is
exactly the last 10 pairs — entries 31 to 50 — in their original order. -/
theorem claim7_last_ten_pairs :
    MAX_TURNS = 10 ∧ c7Seq.length = 50 ∧
    get_history c7Final 0 = c7Seq.drop 30 :=
  ⟨rfl, by decide, by decide⟩

/-- Claim C10 (amended): an update carrying a callback_query whose data does
not start with `mode:`, whose callback_query does carry its message/chat-id/
data/id fields, and which has no top-level message, is acknowledged with
success, with no state mutation and no outbound call.  (Without the
well-formedness of the callback_query the claim fails — see the
counterexample.) -/
theorem claim10_nonmode_callback_no_message_ok (env : Env) (st : BotState)
    (c : Int) (d cqid : String) (h : pyStartsWith d "mode:" = false) :
    webhook env st (TgUpdate.mk (some (TgCallbackQuery.mk
        (some (TgMessage.mk (some (TgChat.mk (some c))) none))
        (some d) (some cqid))) none) =
      Except.ok (st, [], true) := by
  have hred : webhook env st (TgUpdate.mk (some (TgCallbackQuery.mk
      (some (TgMessage.mk (some (TgChat.mk (some c))) none))
      (some d) (some cqid))) none) =
      (if pyStartsWith d "mode:" = true then handleModeCallback env st c d cqid
       else handleMessage env st (TgUpdate.mk (some (TgCallbackQuery.mk
        (some (TgMessage.mk (some (TgChat.mk (some c))) none))
        (some d) (some cqid))) none)) := rfl
  rw [hred, if_neg (by simp [h])]
  rfl

/-- Witness for `claim10_nonmode_callback_no_message_ok`: data `"hello"`,
with an environment in which every external call would raise. -/
theorem claim10_witness :
    webhook (Env.mk CallResult.exn CallResult.exn CallResult.exn (Except.error ()))
      (BotState.mk [(3, [Entry.mk "user" "x"])] [(3, "fitness")])
      (TgUpdate.mk (some (TgCallbackQuery.mk
        (some (TgMessage.mk (some (TgChat.mk (some 3))) none))
        (some "hello") (some "1"))) none) =
      Except.ok (BotState.mk [(3, [Entry.mk "user" "x"])] [(3, "fitness")], [], true) :=
  claim10_nonmode_callback_no_message_ok _ _ 3 "hello" "1" (by decide)

/-- Claim C10 counterexample: an update with a callback_query whose data
(`"hello"`) does not start with `mode:` and with no top-level message, but
whose callback_query lacks the `message` field, raises `KeyError` instead of
returning the success acknowledgement. -/
theorem claim10_counterexample :
    webhook (Env.mk (CallResult.ok 200) (CallResult.ok 200) (CallResult.ok 200)
        (Except.ok (some "hi")))
      (BotState.mk [] [])
      (TgUpdate.mk (some (TgCallbackQuery.mk none (some "hello") (some "1"))) none) =
      Except.error (PyExn.keyError, BotState.mk [] [], []) :=
  rfl

/-- Claim C5: a valid `mode:<name>` callback clears the chat's history while
setting the new mode, and `/reset` clears the chat's history while leaving
the stored mode dictionary entirely unchanged; in both cases no other chat's
history or mode binding is modified. -/
theorem claim5_mode_switch_and_reset_frame :
    (∀ (st : BotState) (name prompt : String) (c : Int) (cqid : String)
       (aN mN : Nat) (ty : CallResult) (cmp : Except Unit (Option String)),
      dictGet modes name = some prompt →
      ∃ st' effs,
        webhook (Env.mk (CallResult.ok aN) ty (CallResult.ok mN) cmp) st
          (TgUpdate.mk (some (TgCallbackQuery.mk
            (some (TgMessage.mk (some (TgChat.mk (some c))) none))
            (some ("mode:" ++ name)) (some cqid))) none) =
          Except.ok (st', effs, true) ∧
        get_history st'.conversations c = [] ∧
        dictGet st'.user_modes c = some name ∧
        ∀ c', c' ≠ c →
          dictGet st'.conversations c' = dictGet st.conversations c' ∧
          dictGet st'.user_modes c' = dictGet st.user_modes c') ∧
    (∀ (st : BotState) (txt : String) (c : Int) (a : CallResult)
       (tyN mN : Nat) (cmp : Except Unit (Option String)),
      pyStartsWith (pyLower (pyStrip txt)) "/reset" = true →
      ∃ st' effs,
        webhook (Env.mk a (CallResult.ok tyN) (CallResult.ok mN) cmp) st
          (TgUpdate.mk none (some (TgMessage.mk (some (TgChat.mk (some c)))
            (some txt)))) =
          Except.ok (st', effs, true) ∧
        get_history st'.conversations c = [] ∧
        st'.user_modes = st.user_modes ∧
        ∀ c', c' ≠ c →
          dictGet st'.conversations c' = dictGet st.conversations c') := by
  constructor
  · intro st name prompt c cqid aN mN ty cmp h
    rcases registered_mode_cases name prompt h with rfl | rfl | rfl | rfl <;>
      exact ⟨_, _, rfl, by simp [get_history, dictGet_pop_self],
        dictGet_set_self _ _ _,
        fun c' hc => ⟨dictGet_pop_ne _ _ _ hc, dictGet_set_ne _ _ _ _ hc⟩⟩
  · intro st txt c a tyN mN cmp h
    refine ⟨BotState.mk (dictPop st.conversations c) st.user_modes,
      [Effect.sendTyping c, Effect.sendMessage c "Memory cleared. Fresh start! ✨"
        (some main_keyboard)], ?_, ?_, rfl, ?_⟩
    · have hred : webhook (Env.mk a (CallResult.ok tyN) (CallResult.ok mN) cmp) st
          (TgUpdate.mk none (some (TgMessage.mk (some (TgChat.mk (some c)))
            (some txt)))) =
          handleText (Env.mk a (CallResult.ok tyN) (CallResult.ok mN) cmp) st c txt
            [Effect.sendTyping c] := rfl
      rw [hred, handleText_reset a (CallResult.ok tyN) mN cmp st c txt
        [Effect.sendTyping c] h]
      rfl
    · simp [get_history, dictGet_pop_self]
    · exact fun c' hc => dictGet_pop_ne _ _ _ hc

/-- Witness for `claim5_mode_switch_and_reset_frame`: a `mode:fitness`
callback for chat 7 and a `  /Reset` message for chat 7, each in a two-chat
store, at concrete inputs. -/
theorem claim5_witness :
    (∃ st' effs,
      webhook (Env.mk (CallResult.ok 1) CallResult.exn (CallResult.ok 1)
          (Except.error ()))
        (BotState.mk [(7, [Entry.mk "user" "x"]), (8, [Entry.mk "user" "y"])]
          [(8, "restaurant")])
        (TgUpdate.mk (some (TgCallbackQuery.mk
          (some (TgMessage.mk (some (TgChat.mk (some 7))) none))
          (some ("mode:" ++ "fitness")) (some "9"))) none) =
        Except.ok (st', effs, true) ∧
      get_history st'.conversations 7 = [] ∧
      dictGet st'.user_modes 7 = some "fitness" ∧
      ∀ c', c' ≠ 7 →
        dictGet st'.conversations c' =
          dictGet [(7, [Entry.mk "user" "x"]), (8, [Entry.mk "user" "y"])] c' ∧
        dictGet st'.user_modes c' = dictGet [(8, "restaurant")] c') ∧
    (∃ st' effs,
      webhook (Env.mk CallResult.exn (CallResult.ok 1) (CallResult.ok 1)
          (Except.error ()))
        (BotState.mk [(7, [Entry.mk "user" "x"]), (8, [Entry.mk "user" "y"])]
          [(8, "restaurant")])
        (TgUpdate.mk none (some (TgMessage.mk (some (TgChat.mk (some 7)))
          (some "  /Reset")))) =
        Except.ok (st', effs, true) ∧
      get_history st'.conversations 7 = [] ∧
      st'.user_modes = [(8, "restaurant")] ∧
      ∀ c', c' ≠ 7 →
        dictGet st'.conversations c' =
          dictGet [(7, [Entry.mk "user" "x"]), (8, [Entry.mk "user" "y"])] c') :=
  ⟨claim5_mode_switch_and_reset_frame.1
      (BotState.mk [(7, [Entry.mk "user" "x"]), (8, [Entry.mk "user" "y"])]
        [(8, "restaurant")])
      "fitness" "You are a friendly fitness coach. Give workout routines, diet tips, and motivational advice."
      7 "9" 1 1 CallResult.exn (Except.error ()) (by decide),
   claim5_mode_switch_and_reset_frame.2
      (BotState.mk [(7, [Entry.mk "user" "x"]), (8, [Entry.mk "user" "y"])]
        [(8, "restaurant")])
      "  /Reset" 7 CallResult.exn 1 1 (Except.error ()) (by decide)⟩

/-- Claim C8 (amended): when the completion service raises on a free-form
message, the apology string `Sorry, I ran into an issue.` is appended to the
chat's history as the assistant turn (after trimming), and the message sent
to the user is that apology string prefixed with the visible mode label —
the error itself is not surfaced.  (The claim's "the reply text sent is the
apology string" is falsified by the prefix — see the counterexample.) -/
theorem claim8_fallback_apology (st : BotState) (txt : String) (c : Int)
    (a : CallResult) (tyN mN : Nat)
    (h1 : pyStartsWith (pyLower (pyStrip txt)) "/start" = false)
    (h2 : pyStartsWith (pyLower (pyStrip txt)) "/reset" = false)
    (h3 : ¬(pyLower (pyStrip txt) = "/mode" ∨ pyLower (pyStrip txt) = "⚙️ mode")) :
    ∃ st' preHist,
      webhook (Env.mk a (CallResult.ok tyN) (CallResult.ok mN) (Except.error ())) st
        (TgUpdate.mk none (some (TgMessage.mk (some (TgChat.mk (some c)))
          (some txt)))) =
        Except.ok (st',
          [Effect.sendTyping c,
           Effect.completionRequest (Entry.mk "system"
              ((dictGet modes (get_mode st.user_modes c)).getD
                ((dictGet modes DEFAULT_MODE).getD "")) ::
             get_history (append_and_trim st.conversations c "user" txt) c),
           Effect.sendMessage c
             ("💬 *[" ++ pyTitle (get_mode st.user_modes c) ++ " Mode]*\n\n" ++
               "Sorry, I ran into an issue.") (some main_keyboard)], true) ∧
      get_history st'.conversations c =
        preHist ++ [Entry.mk "assistant" "Sorry, I ran into an issue."] ∧
      st'.user_modes = st.user_modes := by
  obtain ⟨h0, hlast⟩ := get_history_append_and_trim_last
    (append_and_trim st.conversations c "user" txt) c "assistant"
    "Sorry, I ran into an issue."
  refine ⟨BotState.mk (append_and_trim (append_and_trim st.conversations c "user" txt)
      c "assistant" "Sorry, I ran into an issue.") st.user_modes, h0, ?_, hlast, rfl⟩
  have hred : webhook (Env.mk a (CallResult.ok tyN) (CallResult.ok mN)
        (Except.error ())) st
      (TgUpdate.mk none (some (TgMessage.mk (some (TgChat.mk (some c)))
        (some txt)))) =
      handleText (Env.mk a (CallResult.ok tyN) (CallResult.ok mN)
        (Except.error ())) st c txt [Effect.sendTyping c] := rfl
  rw [hred, handleText_freeform _ _ _ _ _ h1 h2 h3]
  rfl

/-- Witness for `claim8_fallback_apology`: the free-form message `hello` for
chat 5 on an empty store, with the completion call raising. -/
theorem claim8_witness :
    ∃ st' preHist,
      webhook (Env.mk (CallResult.ok 7) (CallResult.ok 200) (CallResult.ok 200)
          (Except.error ()))
        (BotState.mk [] [])
        (TgUpdate.mk none (some (TgMessage.mk (some (TgChat.mk (some 5)))
          (some "hello")))) =
        Except.ok (st',
          [Effect.sendTyping 5,
           Effect.completionRequest
             [Entry.mk "system" "You are a helpful, concise assistant for everyday questions.",
              Entry.mk "user" "hello"],
           Effect.sendMessage 5 "💬 *[General Mode]*\n\nSorry, I ran into an issue."
             (some main_keyboard)], true) ∧
      get_history st'.conversations 5 =
        preHist ++ [Entry.mk "assistant" "Sorry, I ran into an issue."] ∧
      st'.user_modes = [] :=
  claim8_fallback_apology (BotState.mk [] []) "hello" 5 (CallResult.ok 7) 200 200
    (by decide) (by decide) (by decide)

/-- Claim C8 counterexample: on a completion failure the text actually sent
to the user is the mode-labelled string, which is not the apology string
itself. -/
theorem claim8_counterexample :
    webhook (Env.mk (CallResult.ok 200) (CallResult.ok 200) (CallResult.ok 200)
        (Except.error ()))
      (BotState.mk [] [])
      (TgUpdate.mk none (some (TgMessage.mk (some (TgChat.mk (some 5)))
        (some "hello")))) =
      Except.ok (BotState.mk
          [(5, [Entry.mk "user" "hello",
                Entry.mk "assistant" "Sorry, I ran into an issue."])] [],
        [Effect.sendTyping 5,
         Effect.completionRequest
           [Entry.mk "system" "You are a helpful, concise assistant for everyday questions.",
            Entry.mk "user" "hello"],
         Effect.sendMessage 5 "💬 *[General Mode]*\n\nSorry, I ran into an issue."
           (some main_keyboard)], true) ∧
    "💬 *[General Mode]*\n\nSorry, I ran into an issue." ≠
      "Sorry, I ran into an issue." :=
  ⟨rfl, by decide⟩

/-- Claim C9: command recognition — any text whose stripped lowercase form
starts with `/start` triggers the `/start` behaviour (so e.g. `/starting`
does), likewise `/reset` is prefix-matched; `/mode` is matched only by exact
equality with `/mode` or the mode-button label, and a strict extension such
as `/modes` falls through to free-form handling instead. -/
theorem claim9_command_recognition :
    (∀ (st : BotState) (txt : String) (c : Int) (a : CallResult)
       (tyN mN : Nat) (cmp : Except Unit (Option String)),
      pyStartsWith (pyLower (pyStrip txt)) "/start" = true →
      webhook (Env.mk a (CallResult.ok tyN) (CallResult.ok mN) cmp) st
          (TgUpdate.mk none (some (TgMessage.mk (some (TgChat.mk (some c)))
            (some txt)))) =
        Except.ok (BotState.mk (dictPop st.conversations c)
            (dictSet st.user_modes c DEFAULT_MODE),
          [Effect.sendTyping c,
           Effect.sendMessage c start_text (some main_keyboard)], true)) ∧
    (∀ (st : BotState) (txt : String) (c : Int) (a : CallResult)
       (tyN mN : Nat) (cmp : Except Unit (Option String)),
      pyStartsWith (pyLower (pyStrip txt)) "/reset" = true →
      webhook (Env.mk a (CallResult.ok tyN) (CallResult.ok mN) cmp) st
          (TgUpdate.mk none (some (TgMessage.mk (some (TgChat.mk (some c)))
            (some txt)))) =
        Except.ok (BotState.mk (dictPop st.conversations c) st.user_modes,
          [Effect.sendTyping c,
           Effect.sendMessage c "Memory cleared. Fresh start! ✨"
             (some main_keyboard)], true)) ∧
    (∀ (st : BotState) (txt : String) (c : Int) (a : CallResult)
       (tyN mN : Nat) (cmp : Except Unit (Option String)),
      (pyLower (pyStrip txt) = "/mode" ∨ pyLower (pyStrip txt) = "⚙️ mode") →
      webhook (Env.mk a (CallResult.ok tyN) (CallResult.ok mN) cmp) st
          (TgUpdate.mk none (some (TgMessage.mk (some (TgChat.mk (some c)))
            (some txt)))) =
        Except.ok (st,
          [Effect.sendTyping c,
           Effect.sendMessage c "👉 Choose a mode:"
             (some (ReplyMarkup.inlineKeyboard
               (mode_buttons (get_mode st.user_modes c))))], true)) ∧
    (∀ (st : BotState) (txt : String) (c : Int) (a : CallResult) (tyN mN : Nat),
      pyStartsWith (pyLower (pyStrip txt)) "/mode" = true →
      pyLower (pyStrip txt) ≠ "/mode" →
      pyLower (pyStrip txt) ≠ "⚙️ mode" →
      webhook (Env.mk a (CallResult.ok tyN) (CallResult.ok mN) (Except.error ())) st
          (TgUpdate.mk none (some (TgMessage.mk (some (TgChat.mk (some c)))
            (some txt)))) =
        Except.ok (BotState.mk
            (append_and_trim (append_and_trim st.conversations c "user" txt) c
              "assistant" "Sorry, I ran into an issue.") st.user_modes,
          [Effect.sendTyping c,
           Effect.completionRequest (Entry.mk "system"
              ((dictGet modes (get_mode st.user_modes c)).getD
                ((dictGet modes DEFAULT_MODE).getD "")) ::
             get_history (append_and_trim st.conversations c "user" txt) c),
           Effect.sendMessage c
             ("💬 *[" ++ pyTitle (get_mode st.user_modes c) ++ " Mode]*\n\n" ++
               "Sorry, I ran into an issue.") (some main_keyboard)], true)) := by
  refine ⟨?_, ?_, ?_, ?_⟩
  · intro st txt c a tyN mN cmp h
    have hred : webhook (Env.mk a (CallResult.ok tyN) (CallResult.ok mN) cmp) st
        (TgUpdate.mk none (some (TgMessage.mk (some (TgChat.mk (some c)))
          (some txt)))) =
        handleText (Env.mk a (CallResult.ok tyN) (CallResult.ok mN) cmp) st c txt
          [Effect.sendTyping c] := rfl
    rw [hred, handleText_start a (CallResult.ok tyN) mN cmp st c txt
      [Effect.sendTyping c] h]
    rfl
  · intro st txt c a tyN mN cmp h
    have hred : webhook (Env.mk a (CallResult.ok tyN) (CallResult.ok mN) cmp) st
        (TgUpdate.mk none (some (TgMessage.mk (some (TgChat.mk (some c)))
          (some txt)))) =
        handleText (Env.mk a (CallResult.ok tyN) (CallResult.ok mN) cmp) st c txt
          [Effect.sendTyping c] := rfl
    rw [hred, handleText_reset a (CallResult.ok tyN) mN cmp st c txt
      [Effect.sendTyping c] h]
    rfl
  · intro st txt c a tyN mN cmp h
    have hred : webhook (Env.mk a (CallResult.ok tyN) (CallResult.ok mN) cmp) st
        (TgUpdate.mk none (some (TgMessage.mk (some (TgChat.mk (some c)))
          (some txt)))) =
        handleText (Env.mk a (CallResult.ok tyN) (CallResult.ok mN) cmp) st c txt
          [Effect.sendTyping c] := rfl
    rw [hred, handleText_mode a (CallResult.ok tyN) mN cmp st c txt
      [Effect.sendTyping c] h]
    rfl
  · intro st txt c a tyN mN h hm1 hm2
    have hred : webhook (Env.mk a (CallResult.ok tyN) (CallResult.ok mN)
          (Except.error ())) st
        (TgUpdate.mk none (some (TgMessage.mk (some (TgChat.mk (some c)))
          (some txt)))) =
        handleText (Env.mk a (CallResult.ok tyN) (CallResult.ok mN)
          (Except.error ())) st c txt [Effect.sendTyping c] := rfl
    rw [hred, handleText_freeform _ _ _ _ _ (mode_not_start _ h)
      (mode_not_reset _ h) (by rintro (hx | hx) <;> [exact hm1 hx; exact hm2 hx])]
    rfl

/-- Witness for `claim9_command_recognition`: `/starting`, `  /RESET now`,
`⚙️ Mode`, and `/modes`, all at concrete inputs. -/
theorem claim9_witness :
    (webhook (Env.mk CallResult.exn (CallResult.ok 1) (CallResult.ok 1)
          (Except.ok none))
        (BotState.mk [(1, [Entry.mk "user" "x"])] [(1, "fitness")])
        (TgUpdate.mk none (some (TgMessage.mk (some (TgChat.mk (some 1)))
          (some "/starting")))) =
      Except.ok (BotState.mk (dictPop [(1, [Entry.mk "user" "x"])] 1)
          (dictSet [(1, "fitness")] 1 DEFAULT_MODE),
        [Effect.sendTyping 1,
         Effect.sendMessage 1 start_text (some main_keyboard)], true)) ∧
    (webhook (Env.mk CallResult.exn (CallResult.ok 1) (CallResult.ok 1)
          (Except.ok none))
        (BotState.mk [(1, [Entry.mk "user" "x"])] [(1, "fitness")])
        (TgUpdate.mk none (some (TgMessage.mk (some (TgChat.mk (some 1)))
          (some "  /RESET now")))) =
      Except.ok (BotState.mk (dictPop [(1, [Entry.mk "user" "x"])] 1)
          [(1, "fitness")],
        [Effect.sendTyping 1,
         Effect.sendMessage 1 "Memory cleared. Fresh start! ✨"
           (some main_keyboard)], true)) ∧
    (webhook (Env.mk CallResult.exn (CallResult.ok 1) (CallResult.ok 1)
          (Except.ok none))
        (BotState.mk [] [(1, "fitness")])
        (TgUpdate.mk none (some (TgMessage.mk (some (TgChat.mk (some 1)))
          (some "⚙️ Mode")))) =
      Except.ok (BotState.mk [] [(1, "fitness")],
        [Effect.sendTyping 1,
         Effect.sendMessage 1 "👉 Choose a mode:"
           (some (ReplyMarkup.inlineKeyboard
             (mode_buttons (get_mode [(1, "fitness")] 1))))], true)) ∧
    (webhook (Env.mk CallResult.exn (CallResult.ok 1) (CallResult.ok 1)
          (Except.error ()))
        (BotState.mk [] [])
        (TgUpdate.mk none (some (TgMessage.mk (some (TgChat.mk (some 1)))
          (some "/modes")))) =
      Except.ok (BotState.mk
          (append_and_trim (append_and_trim [] 1 "user" "/modes") 1
            "assistant" "Sorry, I ran into an issue.") [],
        [Effect.sendTyping 1,
         Effect.completionRequest (Entry.mk "system"
            ((dictGet modes (get_mode [] 1)).getD
              ((dictGet modes DEFAULT_MODE).getD "")) ::
           get_history (append_and_trim [] 1 "user" "/modes") 1),
         Effect.sendMessage 1
           ("💬 *[" ++ pyTitle (get_mode [] 1) ++ " Mode]*\n\n" ++
             "Sorry, I ran into an issue.") (some main_keyboard)], true)) :=
  ⟨claim9_command_recognition.1 (BotState.mk [(1, [Entry.mk "user" "x"])]
      [(1, "fitness")]) "/starting" 1 CallResult.exn 1 1 (Except.ok none) (by decide),
   claim9_command_recognition.2.1 (BotState.mk [(1, [Entry.mk "user" "x"])]
      [(1, "fitness")]) "  /RESET now" 1 CallResult.exn 1 1 (Except.ok none) (by decide),
   claim9_command_recognition.2.2.1 (BotState.mk [] [(1, "fitness")])
      "⚙️ Mode" 1 CallResult.exn 1 1 (Except.ok none) (by decide),
   claim9_command_recognition.2.2.2 (BotState.mk [] [])
      "/modes" 1 CallResult.exn 1 1 (by decide) (by decide) (by decide)⟩

end TelegramBot
